import Mathlib

/-!
Verification of the AfriWrite Mini purchase-to-delivery pipeline.

Shallow embedding of `src/afriwrite-mini/app.js` (Express + better-sqlite3 +
pdf-lib).  The relational tables (`users`, `books`, `orders`) are lists of
records, the two file directories (`uploads/`, `purchases/`) are association
lists keyed by storage filename resp. by the `(buyerId, bookId)` pair, and a
PDF document (the pdf-lib view of it) is a list of pages, each carrying its
own dimensions and its list of drawn text operations.  Route handlers become
functions from the state (plus the request parameters) to a result and a new
state.  The byte-level semantics of `fs.promises.writeFile` is modelled
separately for the persistence claims.
-/

namespace AfriWrite

/-- One `drawText` operation as issued by pdf-lib's `page.drawText(text, {x, y,
size, font, color, opacity})` (app.js:261-264); only the data the claims speak
about (text and placement) is carried. -/
structure DrawTextOp where
  text : String
  x : Nat
  y : Nat
  size : Nat
  deriving DecidableEq, Repr

/-- A PDF page: its own width and height (what `page.getSize()` returns,
app.js:259) and its content, as the ordered list of drawn operations.  In PDF
user space the coordinate origin is the page's bottom-left corner. -/
structure Page where
  width : Nat
  height : Nat
  ops : List DrawTextOp
  deriving DecidableEq, Repr

/-- A document is its ordered list of pages (`pdfDoc.getPages()`). -/
abbrev PDFDoc := List Page

/-- Row of the `users` table (app.js:36-43); `password_hash` and `created_at`
are irrelevant to the claims and omitted. -/
structure User where
  id : String
  email : String
  name : String
  role : String
  deriving DecidableEq, Repr

/-- Row of the `books` table (app.js:44-54); only the columns the pipeline
reads (`id`, `title`, `pdf_path`) are carried. -/
structure Book where
  id : String
  title : String
  pdfPath : String
  deriving DecidableEq, Repr

/-- Row of the `orders` table (app.js:55-64); `created_at` omitted.  The
schema declares `UNIQUE(buyer_id, book_id)`. -/
structure Order where
  id : String
  buyerId : String
  bookId : String
  status : String
  deriving DecidableEq, Repr

/-- Server state: the three tables and the two directories.  `uploads` is the
content of `UPLOAD_DIR` (source documents keyed by stored filename),
`purchases` the content of `PURCHASE_DIR` (derived artifacts keyed by the
`(buyerId, bookId)` pair, matching the path template
`PURCHASE_DIR/<buyerId>_<bookId>.pdf` of app.js:252). -/
structure St where
  books : List Book
  orders : List Order
  uploads : List (String × PDFDoc)
  purchases : List ((String × String) × PDFDoc)
  deriving DecidableEq, Repr

/-- The lookup `SELECT * FROM books WHERE id=?` (app.js:239). -/
def findBook (books : List Book) (bookId : String) : Option Book :=
  books.find? (fun b => decide (b.id = bookId))

/-- Reading a file from `UPLOAD_DIR` (app.js:254). -/
def lookupUpload (uploads : List (String × PDFDoc)) (name : String) : Option PDFDoc :=
  (uploads.find? (fun kv => decide (kv.1 = name))).map (fun kv => kv.2)

/-- Reading a derived artifact from `PURCHASE_DIR` by its `(buyer, book)` key. -/
def lookupPurchase (purchases : List ((String × String) × PDFDoc))
    (key : String × String) : Option PDFDoc :=
  (purchases.find? (fun kv => decide (kv.1 = key))).map (fun kv => kv.2)

/-- Storing a derived artifact at its `(buyer, book)` key, overwriting any
previous artifact for that key (a filesystem path holds one file). -/
def setPurchase : List ((String × String) × PDFDoc) → String × String → PDFDoc →
    List ((String × String) × PDFDoc)
  | [], key, d => [(key, d)]
  | kv :: rest, key, d =>
      if kv.1 = key then (key, d) :: rest else kv :: setPurchase rest key d

/-- Whether an order row matches a `(buyer, book)` pair, any status. -/
def orderMatches (buyerId bookId : String) (o : Order) : Bool :=
  decide (o.buyerId = buyerId ∧ o.bookId = bookId)

/-- Whether some order row exists for the pair (the condition under which
SQLite's `UNIQUE(buyer_id, book_id)` makes `INSERT OR IGNORE` ignore). -/
def hasOrder (orders : List Order) (buyerId bookId : String) : Bool :=
  orders.any (orderMatches buyerId bookId)

/-- Number of order rows for the pair. -/
def countOrders (orders : List Order) (buyerId bookId : String) : Nat :=
  orders.countP (orderMatches buyerId bookId)

/-- The stored order row for the pair, if any. -/
def findOrder (orders : List Order) (buyerId bookId : String) : Option Order :=
  orders.find? (orderMatches buyerId bookId)

/-- `INSERT OR IGNORE INTO orders ...` (app.js:244-245): the row is appended
unless a row for the same `(buyer_id, book_id)` already exists, in which case
the statement is a no-op. -/
def insertOrIgnoreOrder (orders : List Order) (o : Order) : List Order :=
  if hasOrder orders o.buyerId o.bookId then orders else orders ++ [o]

/-- The ownership query `SELECT 1 FROM orders WHERE buyer_id=? AND book_id=?
AND status='PAID'` (app.js:231 and app.js:289-290). -/
def ownsBook (orders : List Order) (buyerId bookId : String) : Bool :=
  orders.any (fun o => decide (o.buyerId = buyerId ∧ o.bookId = bookId ∧ o.status = "PAID"))

/-- The watermark string template of app.js:260. -/
def watermarkText (buyerEmail bookTitle orderId : String) : String :=
  "Purchased by " ++ buyerEmail ++ " | Book " ++ bookTitle ++ " | Order " ++ orderId

/-- The drawn watermark operation of app.js:261-264: fixed coordinates
`x := 36`, `y := 20` (offsets from the page's own bottom-left origin in PDF
user space) and `size := 10`. -/
def wmOp (text : String) : DrawTextOp :=
  { text := text, x := 36, y := 20, size := 10 }

/-- One iteration of the `pages.forEach` loop (app.js:258-265): the watermark
operation is drawn on top of the page's existing content; nothing else of the
page changes. -/
def stampPage (text : String) (p : Page) : Page :=
  { p with ops := p.ops ++ [wmOp text] }

/-- The whole derivation step: the loop body runs on every page of the loaded
document, in order. -/
def stampDoc (text : String) (doc : PDFDoc) : PDFDoc :=
  doc.map (stampPage text)

/-- The last operation drawn onto a page by the derivation step. -/
def watermarkOp (text : String) (p : Page) : Option DrawTextOp :=
  ((stampPage text p).ops).getLast?

/-- Outcome of `POST /buy/:id` (app.js:238-274): 404 "Not found", 500 "Failed
to prepare purchase", or the redirect to `/library`. -/
inductive PurchaseResult where
  | notFound
  | failed
  | success
  deriving DecidableEq, Repr

/-- The order row the handler tries to insert (app.js:244-245): a freshly
generated id and status 'PAID'. -/
def newOrderRow (orderId buyerId bookId : String) : Order :=
  { id := orderId, buyerId := buyerId, bookId := bookId, status := "PAID" }

/-- Running the `INSERT OR IGNORE` statement against the state. -/
def recordOrder (st : St) (row : Order) : St :=
  { st with orders := insertOrIgnoreOrder st.orders row }

/-- Persisting a derived artifact at its `(buyer, book)` path. -/
def storeArtifact (st : St) (key : String × String) (d : PDFDoc) : St :=
  { st with purchases := setPurchase st.purchases key d }

/-- The handler of `POST /buy/:id` (app.js:238-274).  `orderId` is the uuid
generated freshly for this call (app.js:242); `deriveOk` injects the outcome
of the try-block around read/load/stamp/save (app.js:253-271): when any of
those throws, the handler answers 500 and the artifact store is untouched.
The byte-level, non-atomic semantics of the final `writeFile` itself is
modelled separately by `writeFileInPlace` below. -/
def purchase (st : St) (buyerId buyerEmail bookId orderId : String)
    (deriveOk : Bool) : PurchaseResult × St :=
  match findBook st.books bookId with
  | none => (.notFound, st)
  | some book =>
    let st1 := recordOrder st (newOrderRow orderId buyerId bookId)
    match lookupUpload st1.uploads book.pdfPath with
    | none => (.failed, st1)
    | some doc =>
      if deriveOk then
        let stamped := stampDoc (watermarkText buyerEmail book.title orderId) doc
        (.success, storeArtifact st1 (buyerId, bookId) stamped)
      else (.failed, st1)

/-- Outcome of `GET /download/:bookId` (app.js:288-295): 403 "You do not own
this book", 404 "Your copy is not ready", or `res.download` with the fixed
suggested filename. -/
inductive FetchResult where
  | forbidden
  | notReady
  | success (suggestedName : String)
  deriving DecidableEq, Repr

/-- The handler of `GET /download/:bookId` (app.js:288-295): the ownership
query runs first on every call; only then is the artifact's existence on disk
consulted; on success the download carries the constant name
"your-book.pdf". -/
def fetch (st : St) (requesterId bookId : String) : FetchResult :=
  if ownsBook st.orders requesterId bookId then
    match lookupPurchase st.purchases (requesterId, bookId) with
    | some _ => .success "your-book.pdf"
    | none => .notReady
  else .forbidden

/-- The static mount `app.use("/files", express.static(UPLOAD_DIR))`
(app.js:73): any file of the uploads directory is served by storage filename
to any requester, with no authentication and no ownership check. -/
def filesRoute (st : St) (name : String) : Option PDFDoc :=
  lookupUpload st.uploads name

/-- ASCII model of JavaScript's `email.toLowerCase()` (app.js:170, 171, 182). -/
def toLowerCase (s : String) : String :=
  String.mk (s.data.map Char.toLower)

/-- Outcome of `POST /register` (app.js:163-176): either the new users table,
or the unique-constraint failure rendered as "Email already used". -/
inductive RegisterResult where
  | ok (users : List User)
  | emailUsed
  deriving DecidableEq, Repr

/-- Whether an email (already normalized) collides with a stored row: the
`email TEXT UNIQUE` constraint on the insert of app.js:169-170. -/
def emailTaken (users : List User) (e : String) : Bool :=
  users.any (fun u => decide (u.email = e))

/-- The handler of `POST /register` (app.js:163-176): the email is stored
lower-cased; a duplicate hits `SQLITE_CONSTRAINT_UNIQUE` and is reported. -/
def registerUser (users : List User) (id email name role : String) : RegisterResult :=
  let e := toLowerCase email
  if emailTaken users e then .emailUsed
  else .ok (users ++
    [{ id := id, email := e, name := name,
       role := if role = "WRITER" then "WRITER" else "READER" }])

/-- The lookup `SELECT * FROM users WHERE email=?` with the submitted email
lower-cased (app.js:182). -/
def findUserByEmail (users : List User) (email : String) : Option User :=
  users.find? (fun u => decide (u.email = toLowerCase email))

/-- Artifact directory at byte granularity: each `(buyerId, bookId)` path
holds at most one byte string. -/
abbrev FileStore := String × String → Option (List Nat)

/-- Whether a write call runs to completion or is interrupted (crash, client
disconnect, I/O error) after `k` bytes have reached the file. -/
inductive WriteOutcome where
  | complete
  | interrupted (k : Nat)
  deriving DecidableEq, Repr

/-- Overwriting the file at `key`. -/
def setFile (store : FileStore) (key : String × String) (bytes : List Nat) : FileStore :=
  fun k => if k = key then some bytes else store k

/-- Model of `fs.promises.writeFile(wmOutPath, stamped)` (app.js:267): the
destination is opened with truncation and the bytes are written in place,
sequentially.  A completed call leaves the full byte string at the path; a
call interrupted after `k` bytes leaves the first `k` bytes there.  No
temporary file and no rename are involved. -/
def writeFileInPlace (store : FileStore) (key : String × String) (bytes : List Nat)
    (o : WriteOutcome) : FileStore :=
  match o with
  | .complete => setFile store key bytes
  | .interrupted k => setFile store key (bytes.take k)

/-- Modelled from the spec: the atomic publish the spec prescribes
("write-to-temp-then-rename or equivalent, never in-place truncation") — an
interrupted write leaves the previously persisted artifact unchanged. -/
def writeFileAtomicSpec (store : FileStore) (key : String × String) (bytes : List Nat)
    (o : WriteOutcome) : FileStore :=
  match o with
  | .complete => setFile store key bytes
  | .interrupted _ => store

/-! ### Concrete fixtures -/

/-- A one-page portrait document. -/
def onePageDoc : PDFDoc := [{ width := 612, height := 792, ops := [] }]

/-- A two-page source document mixing portrait and landscape dimensions, the
first page carrying pre-existing content. -/
def mixedDoc : PDFDoc :=
  [{ width := 612, height := 792, ops := [{ text := "body", x := 100, y := 700, size := 12 }] },
   { width := 792, height := 612, ops := [] }]

/-- A published book row. -/
def bookB1 : Book := { id := "b1", title := "Things Fall Together", pdfPath := "orig.pdf" }

/-- State with one published book and its uploaded source, no orders and no
derived artifacts. -/
def baseSt : St :=
  { books := [bookB1], orders := [], uploads := [("orig.pdf", mixedDoc)], purchases := [] }

/-- A PAID order row for buyer "u1" and book "b1". -/
def paidOrder : Order := { id := "o-old", buyerId := "u1", bookId := "b1", status := "PAID" }

/-- State where buyer "u1" owns book "b1" (PAID order persisted) but no
artifact has been derived yet. -/
def ownedSt : St :=
  { books := [bookB1], orders := [paidOrder],
    uploads := [("orig.pdf", mixedDoc)], purchases := [] }

/-- State where an artifact file for ("u1", "b1") sits on disk although no
order row exists (e.g. written before the order table was wiped). -/
def ghostSt : St :=
  { books := [bookB1], orders := [], uploads := [],
    purchases := [(("u1", "b1"), onePageDoc)] }

/-- The user row produced by registering "Ada@X.COM". -/
def adaUser : User :=
  { id := "u1", email := "ada@x.com", name := "Ada", role := "READER" }

/-! ### Helper lemmas -/

@[simp]
theorem newOrderRow_buyerId (orderId buyerId bookId : String) :
    (newOrderRow orderId buyerId bookId).buyerId = buyerId := rfl

@[simp]
theorem newOrderRow_bookId (orderId buyerId bookId : String) :
    (newOrderRow orderId buyerId bookId).bookId = bookId := rfl

@[simp]
theorem recordOrder_books (st : St) (row : Order) : (recordOrder st row).books = st.books := rfl

@[simp]
theorem recordOrder_uploads (st : St) (row : Order) :
    (recordOrder st row).uploads = st.uploads := rfl

@[simp]
theorem recordOrder_purchases (st : St) (row : Order) :
    (recordOrder st row).purchases = st.purchases := rfl

@[simp]
theorem recordOrder_orders (st : St) (row : Order) :
    (recordOrder st row).orders = insertOrIgnoreOrder st.orders row := rfl

@[simp]
theorem storeArtifact_books (st : St) (key : String × String) (d : PDFDoc) :
    (storeArtifact st key d).books = st.books := rfl

@[simp]
theorem storeArtifact_uploads (st : St) (key : String × String) (d : PDFDoc) :
    (storeArtifact st key d).uploads = st.uploads := rfl

@[simp]
theorem storeArtifact_orders (st : St) (key : String × String) (d : PDFDoc) :
    (storeArtifact st key d).orders = st.orders := rfl

@[simp]
theorem storeArtifact_purchases (st : St) (key : String × String) (d : PDFDoc) :
    (storeArtifact st key d).purchases = setPurchase st.purchases key d := rfl

theorem lookupPurchase_setPurchase (ps : List ((String × String) × PDFDoc))
    (key : String × String) (d : PDFDoc) :
    lookupPurchase (setPurchase ps key d) key = some d := by
  induction ps with
  | nil => simp [setPurchase, lookupPurchase]
  | cons kv rest ih =>
    by_cases h : kv.1 = key
    · simp [setPurchase, h, lookupPurchase, List.find?_cons]
    · simpa [setPurchase, h, lookupPurchase, List.find?_cons] using ih

theorem hasOrder_iff_countOrders_pos (orders : List Order) (b k : String) :
    hasOrder orders b k = true ↔ 0 < countOrders orders b k := by
  simp [hasOrder, countOrders, List.any_eq_true, List.countP_pos_iff]

theorem countOrders_insertOrIgnore (orders : List Order) (o : Order) :
    countOrders (insertOrIgnoreOrder orders o) o.buyerId o.bookId =
      max (countOrders orders o.buyerId o.bookId) 1 := by
  by_cases h : hasOrder orders o.buyerId o.bookId
  · have hpos := (hasOrder_iff_countOrders_pos orders o.buyerId o.bookId).1 h
    simp only [insertOrIgnoreOrder, h, if_true]
    omega
  · have hz : countOrders orders o.buyerId o.bookId = 0 := by
      by_contra hnz
      exact h ((hasOrder_iff_countOrders_pos orders o.buyerId o.bookId).2
        (Nat.pos_of_ne_zero hnz))
    have hself : orderMatches o.buyerId o.bookId o = true := by simp [orderMatches]
    simp only [countOrders] at hz ⊢
    simp [insertOrIgnoreOrder, h, List.countP_append, hself, hz]

theorem insertOrIgnoreOrder_of_hasOrder (orders : List Order) (o : Order)
    (h : hasOrder orders o.buyerId o.bookId = true) :
    insertOrIgnoreOrder orders o = orders := by
  simp [insertOrIgnoreOrder, h]

theorem hasOrder_of_findOrder (orders : List Order) (b k : String) (o : Order)
    (h : findOrder orders b k = some o) : hasOrder orders b k = true := by
  have hmem := List.mem_of_find?_eq_some h
  have hp := List.find?_some h
  simp [hasOrder, List.any_eq_true]
  exact ⟨o, hmem, by simpa [orderMatches] using hp⟩

theorem ownsBook_insertOrIgnore_PAID (orders : List Order) (b k oid : String)
    (hinv : ∀ o ∈ orders, o.status = "PAID") :
    ownsBook (insertOrIgnoreOrder orders (newOrderRow oid b k)) b k = true := by
  by_cases h : hasOrder orders b k
  · have heq : insertOrIgnoreOrder orders (newOrderRow oid b k) = orders :=
      insertOrIgnoreOrder_of_hasOrder orders (newOrderRow oid b k) h
    rw [heq]
    rcases (List.any_eq_true).1 h with ⟨o, ho, hm⟩
    simp [orderMatches] at hm
    simp [ownsBook, List.any_eq_true]
    exact ⟨o, ho, hm.1, hm.2, hinv o ho⟩
  · simp [insertOrIgnoreOrder, newOrderRow, h, ownsBook, List.any_append]

theorem purchase_notFound_eq (st : St) (buyerId buyerEmail bookId orderId : String)
    (ok : Bool) (hb : findBook st.books bookId = none) :
    purchase st buyerId buyerEmail bookId orderId ok = (.notFound, st) := by
  simp [purchase, hb]

theorem purchase_noUpload_eq (st : St) (buyerId buyerEmail bookId orderId : String)
    (ok : Bool) (book : Book) (hb : findBook st.books bookId = some book)
    (hu : lookupUpload st.uploads book.pdfPath = none) :
    purchase st buyerId buyerEmail bookId orderId ok =
      (.failed, recordOrder st (newOrderRow orderId buyerId bookId)) := by
  simp [purchase, hb, hu]

theorem purchase_success_eq (st : St) (buyerId buyerEmail bookId orderId : String)
    (book : Book) (doc : PDFDoc) (hb : findBook st.books bookId = some book)
    (hu : lookupUpload st.uploads book.pdfPath = some doc) :
    purchase st buyerId buyerEmail bookId orderId true =
      (.success, storeArtifact (recordOrder st (newOrderRow orderId buyerId bookId))
        (buyerId, bookId) (stampDoc (watermarkText buyerEmail book.title orderId) doc)) := by
  simp [purchase, hb, hu]

theorem purchase_deriveFail_eq (st : St) (buyerId buyerEmail bookId orderId : String)
    (book : Book) (doc : PDFDoc) (hb : findBook st.books bookId = some book)
    (hu : lookupUpload st.uploads book.pdfPath = some doc) :
    purchase st buyerId buyerEmail bookId orderId false =
      (.failed, recordOrder st (newOrderRow orderId buyerId bookId)) := by
  simp [purchase, hb, hu]

theorem string_append_right_ne (s x y : String) (h : x ≠ y) : s ++ x ≠ s ++ y := by
  intro hc
  apply h
  have hd : s.data ++ x.data = s.data ++ y.data := by
    have := congrArg String.data hc
    simpa [String.data_append] using this
  exact String.ext (List.append_cancel_left hd)

/-! ### The claims -/

/-- Claim C1, evaluated at its failing input: in a state with one published
book and no orders at all, the requester owns nothing and the ownership-gated
download route refuses with Forbidden, yet the unauthenticated static mount
`/files` (app.js:73) serves the book's full source document to anyone who
presents its storage filename — contradicting the claim that the source bytes
are obtainable only through the ownership-gated download operation. -/
theorem files_static_serves_source_without_ownership :
    ownsBook baseSt.orders "u1" "b1" = false ∧
    fetch baseSt "u1" "b1" = .forbidden ∧
    filesRoute baseSt bookB1.pdfPath = some mixedDoc := by
  refine ⟨by decide, by decide, by decide⟩

/-- Claim C3, counterexample: the artifact write is a plain in-place
`fs.promises.writeFile` (app.js:267).  At path ("u1", "b1") holding a prior
artifact `[1, 2, 3]`, a write of `[4, 5, 6]` interrupted after one byte leaves
the file holding the partial content `[4]`: the previously persisted artifact
is not left unchanged and a partial file is visible, refuting the claimed
write-to-temp-then-rename atomicity. -/
theorem writeFile_interrupted_destroys_prior_artifact :
    writeFileInPlace (setFile (fun _ => none) ("u1", "b1") [1, 2, 3])
      ("u1", "b1") [4, 5, 6] (.interrupted 1) ("u1", "b1") = some [4] ∧
    writeFileInPlace (setFile (fun _ => none) ("u1", "b1") [1, 2, 3])
      ("u1", "b1") [4, 5, 6] (.interrupted 1) ("u1", "b1") ≠ some [1, 2, 3] ∧
    writeFileAtomicSpec (setFile (fun _ => none) ("u1", "b1") [1, 2, 3])
      ("u1", "b1") [4, 5, 6] (.interrupted 1) ("u1", "b1") = some [1, 2, 3] := by
  refine ⟨by decide, by decide, by decide⟩

/-- Claim C3 as amended: persistence is not atomic.  A derivation failure
before the write leaves the artifact store untouched, and a completed write
publishes the full artifact; but the write itself is in-place truncation, so a
write interrupted after `k` bytes leaves the first `k` bytes of the new
artifact visible at the pair's path, replacing the prior artifact — there is
no write-to-temp-then-rename. -/
theorem writeFile_inplace_characterisation (store : FileStore) (key : String × String)
    (bytes : List Nat) (k : Nat) (st : St) (buyerId buyerEmail bookId orderId : String) :
    writeFileInPlace store key bytes .complete key = some bytes ∧
    writeFileInPlace store key bytes (.interrupted k) key = some (bytes.take k) ∧
    (purchase st buyerId buyerEmail bookId orderId false).2.purchases = st.purchases := by
  refine ⟨by simp [writeFileInPlace, setFile], by simp [writeFileInPlace, setFile], ?_⟩
  rcases hb : findBook st.books bookId with _ | book
  · rw [purchase_notFound_eq st buyerId buyerEmail bookId orderId false hb]
  · rcases hu : lookupUpload st.uploads book.pdfPath with _ | doc
    · rw [purchase_noUpload_eq st buyerId buyerEmail bookId orderId false book hb hu]
      simp
    · rw [purchase_deriveFail_eq st buyerId buyerEmail bookId orderId book doc hb hu]
      simp

/-- Claim C4: in every state, a requester with no PAID order for the book is
refused with Forbidden by the download route — the ownership query runs on the
current orders table on every call, and the outcome does not depend on
whether an artifact file for the pair happens to exist on disk. -/
theorem fetch_forbidden_without_paid_order (st : St) (requesterId bookId : String)
    (h : ownsBook st.orders requesterId bookId = false) :
    fetch st requesterId bookId = .forbidden := by
  simp [fetch, h]

/-- Witness for C4: in a state where an artifact file for ("u1", "b1") exists
on disk but no order row does, the download is still Forbidden. -/
theorem fetch_forbidden_without_paid_order_witness :
    (ownsBook ghostSt.orders "u1" "b1" = false ∧
     lookupPurchase ghostSt.purchases ("u1", "b1") = some onePageDoc) ∧
    fetch ghostSt "u1" "b1" = .forbidden :=
  ⟨⟨by decide, by decide⟩,
   fetch_forbidden_without_paid_order ghostSt "u1" "b1" (by decide)⟩

/-- Claim C5: whenever the requester owns the book, the download route answers
NotReady when no artifact has been persisted for the pair, and in no case does
an owner receive Forbidden. -/
theorem fetch_notReady_distinct_from_forbidden (st : St) (requesterId bookId : String)
    (hown : ownsBook st.orders requesterId bookId = true) :
    (lookupPurchase st.purchases (requesterId, bookId) = none →
      fetch st requesterId bookId = .notReady) ∧
    fetch st requesterId bookId ≠ .forbidden := by
  constructor
  · intro hmiss
    simp [fetch, hown, hmiss]
  · simp only [fetch, hown, if_true]
    cases lookupPurchase st.purchases (requesterId, bookId) <;> simp

/-- Witness for C5: buyer "u1" owns book "b1" but no artifact has been
derived; the download answers NotReady, not Forbidden. -/
theorem fetch_notReady_distinct_from_forbidden_witness :
    (ownsBook ownedSt.orders "u1" "b1" = true ∧
     lookupPurchase ownedSt.purchases ("u1", "b1") = none) ∧
    (fetch ownedSt "u1" "b1" = .notReady ∧ fetch ownedSt "u1" "b1" ≠ .forbidden) :=
  ⟨⟨by decide, by decide⟩,
   ⟨(fetch_notReady_distinct_from_forbidden ownedSt "u1" "b1" (by decide)).1 (by decide),
    (fetch_notReady_distinct_from_forbidden ownedSt "u1" "b1" (by decide)).2⟩⟩

/-- Claim C8: the watermark drawn by the derivation step sits at the constant
offset (36, 20) from each page's own bottom-left origin — PDF user space puts
the origin at the page's bottom-left corner, so this is a fixed position near
the bottom-left margin of that page — and therefore the footer position is
identical across any two pages, whatever their widths and heights; it assumes
no fixed page size for the document. -/
theorem watermark_placement_bottom_left_stable (text : String) (p q : Page) :
    (watermarkOp text p).map (fun o => (o.x, o.y)) = some (36, 20) ∧
    (watermarkOp text p).map (fun o => (o.x, o.y)) =
      (watermarkOp text q).map (fun o => (o.x, o.y)) := by
  constructor <;> simp [watermarkOp, stampPage, wmOp, List.getLast?_concat]

/-- Claim C2: purchase is idempotent per (buyer, book) pair.  For a valid
buyer and book (the book exists and its source document is uploaded), if the
orders table respects the UNIQUE(buyer_id, book_id) constraint (at most one
row for the pair), then calling purchase twice in a row succeeds both times,
leaves exactly one Order row for the pair, and the second call has regenerated
and persisted the watermarked artifact (it holds the second call's watermark). -/
theorem purchase_idempotent_pair (st : St) (buyerId buyerEmail bookId oid1 oid2 : String)
    (book : Book) (doc : PDFDoc)
    (hb : findBook st.books bookId = some book)
    (hu : lookupUpload st.uploads book.pdfPath = some doc)
    (hcount : countOrders st.orders buyerId bookId ≤ 1) :
    (purchase st buyerId buyerEmail bookId oid1 true).1 = .success ∧
    (purchase (purchase st buyerId buyerEmail bookId oid1 true).2
        buyerId buyerEmail bookId oid2 true).1 = .success ∧
    countOrders (purchase (purchase st buyerId buyerEmail bookId oid1 true).2
        buyerId buyerEmail bookId oid2 true).2.orders buyerId bookId = 1 ∧
    lookupPurchase (purchase (purchase st buyerId buyerEmail bookId oid1 true).2
        buyerId buyerEmail bookId oid2 true).2.purchases (buyerId, bookId) =
      some (stampDoc (watermarkText buyerEmail book.title oid2) doc) := by
  have h1 := purchase_success_eq st buyerId buyerEmail bookId oid1 book doc hb hu
  have h2 := purchase_success_eq
    (storeArtifact (recordOrder st (newOrderRow oid1 buyerId bookId)) (buyerId, bookId)
      (stampDoc (watermarkText buyerEmail book.title oid1) doc))
    buyerId buyerEmail bookId oid2 book doc (by simpa using hb) (by simpa using hu)
  rw [h1]
  dsimp only
  rw [h2]
  dsimp only
  refine ⟨rfl, rfl, ?_, ?_⟩
  · simp only [storeArtifact_orders, recordOrder_orders]
    have c1 := countOrders_insertOrIgnore st.orders (newOrderRow oid1 buyerId bookId)
    have c2 := countOrders_insertOrIgnore
      (insertOrIgnoreOrder st.orders (newOrderRow oid1 buyerId bookId))
      (newOrderRow oid2 buyerId bookId)
    simp only [newOrderRow_buyerId, newOrderRow_bookId] at c1 c2
    omega
  · simp only [storeArtifact_purchases]
    exact lookupPurchase_setPurchase _ _ _

/-- Witness for C2: buying book "b1" twice as "u1" from the base state leaves
one order row and the artifact watermarked with the second call's order id. -/
theorem purchase_idempotent_pair_witness :
    (findBook baseSt.books "b1" = some bookB1 ∧
     lookupUpload baseSt.uploads bookB1.pdfPath = some mixedDoc ∧
     countOrders baseSt.orders "u1" "b1" ≤ 1) ∧
    ((purchase baseSt "u1" "ada@x.com" "b1" "o1" true).1 = .success ∧
     (purchase (purchase baseSt "u1" "ada@x.com" "b1" "o1" true).2
         "u1" "ada@x.com" "b1" "o2" true).1 = .success ∧
     countOrders (purchase (purchase baseSt "u1" "ada@x.com" "b1" "o1" true).2
         "u1" "ada@x.com" "b1" "o2" true).2.orders "u1" "b1" = 1 ∧
     lookupPurchase (purchase (purchase baseSt "u1" "ada@x.com" "b1" "o1" true).2
         "u1" "ada@x.com" "b1" "o2" true).2.purchases ("u1", "b1") =
       some (stampDoc (watermarkText "ada@x.com" bookB1.title "o2") mixedDoc)) :=
  ⟨⟨by decide, by decide, by decide⟩,
   purchase_idempotent_pair baseSt "u1" "ada@x.com" "b1" "o1" "o2" bookB1 mixedDoc
     (by decide) (by decide) (by decide)⟩

/-- Claim C6: when the book does not exist the purchase call fails with
NotFound and the state — in particular the orders table — is unchanged; when
the book exists and derivation or persistence fails (injected failure), the
caller receives the failure result, never success, and an order row for the
pair remains persisted with status PAID (given the table invariant that every
stored order is PAID). -/
theorem purchase_failure_reported_order_kept (st : St)
    (buyerId buyerEmail bookId orderId : String)
    (hinv : ∀ o ∈ st.orders, o.status = "PAID") :
    (findBook st.books bookId = none →
      purchase st buyerId buyerEmail bookId orderId false = (.notFound, st)) ∧
    (∀ book, findBook st.books bookId = some book →
      (purchase st buyerId buyerEmail bookId orderId false).1 = .failed ∧
      ownsBook (purchase st buyerId buyerEmail bookId orderId false).2.orders
        buyerId bookId = true) := by
  constructor
  · intro hb
    exact purchase_notFound_eq st buyerId buyerEmail bookId orderId false hb
  · intro book hb
    rcases hu : lookupUpload st.uploads book.pdfPath with _ | doc
    · rw [purchase_noUpload_eq st buyerId buyerEmail bookId orderId false book hb hu]
      exact ⟨rfl, by
        simpa using ownsBook_insertOrIgnore_PAID st.orders buyerId bookId orderId hinv⟩
    · rw [purchase_deriveFail_eq st buyerId buyerEmail bookId orderId book doc hb hu]
      exact ⟨rfl, by
        simpa using ownsBook_insertOrIgnore_PAID st.orders buyerId bookId orderId hinv⟩

/-- Witness for C6: from the base state, a purchase of the missing book "nope"
returns NotFound with the state unchanged, and a purchase of "b1" with
derivation failing returns the failure while the PAID order row stays. -/
theorem purchase_failure_reported_order_kept_witness :
    (∀ o ∈ baseSt.orders, o.status = "PAID") ∧
    ((findBook baseSt.books "nope" = none →
      purchase baseSt "u1" "ada@x.com" "nope" "o1" false = (.notFound, baseSt)) ∧
     (∀ book, findBook baseSt.books "nope" = some book →
      (purchase baseSt "u1" "ada@x.com" "nope" "o1" false).1 = .failed ∧
      ownsBook (purchase baseSt "u1" "ada@x.com" "nope" "o1" false).2.orders
        "u1" "nope" = true)) ∧
    ((findBook baseSt.books "b1" = none →
      purchase baseSt "u1" "ada@x.com" "b1" "o1" false = (.notFound, baseSt)) ∧
     (∀ book, findBook baseSt.books "b1" = some book →
      (purchase baseSt "u1" "ada@x.com" "b1" "o1" false).1 = .failed ∧
      ownsBook (purchase baseSt "u1" "ada@x.com" "b1" "o1" false).2.orders
        "u1" "b1" = true)) :=
  ⟨by decide,
   purchase_failure_reported_order_kept baseSt "u1" "ada@x.com" "nope" "o1" (by decide),
   purchase_failure_reported_order_kept baseSt "u1" "ada@x.com" "b1" "o1" (by decide)⟩

/-- Claim C7: the derivation step preserves the page count and the page order
of the source document; on each page all pre-existing content survives
unchanged and in its original order (the stamped page's operation list is the
original list with the watermark operation appended) and the page keeps its
own width and height; the watermark is drawn on every page, whatever that
page's dimensions. -/
theorem derive_preserves_pages_and_stamps_all (text : String) (doc : PDFDoc)
    (i : Nat) (p : Page) (hp : doc[i]? = some p) :
    (stampDoc text doc).length = doc.length ∧
    (stampDoc text doc)[i]? = some (stampPage text p) ∧
    (stampPage text p).width = p.width ∧
    (stampPage text p).height = p.height ∧
    (stampPage text p).ops = p.ops ++ [wmOp text] ∧
    wmOp text ∈ (stampPage text p).ops := by
  refine ⟨by simp [stampDoc], ?_, rfl, rfl, rfl, ?_⟩
  · simp [stampDoc, List.getElem?_map, hp]
  · simp [stampPage]

/-- Witness for C7, on the mixed portrait/landscape document, at its
landscape second page. -/
theorem derive_preserves_pages_and_stamps_all_witness :
    mixedDoc[1]? = some { width := 792, height := 612, ops := [] } ∧
    ((stampDoc "wm" mixedDoc).length = mixedDoc.length ∧
     (stampDoc "wm" mixedDoc)[1]? =
       some (stampPage "wm" { width := 792, height := 612, ops := [] }) ∧
     (stampPage "wm" { width := 792, height := 612, ops := [] }).width = 792 ∧
     (stampPage "wm" { width := 792, height := 612, ops := [] }).height = 612 ∧
     (stampPage "wm" { width := 792, height := 612, ops := [] }).ops =
       ([] : List DrawTextOp) ++ [wmOp "wm"] ∧
     wmOp "wm" ∈ (stampPage "wm" { width := 792, height := 612, ops := [] }).ops) :=
  ⟨by decide,
   derive_preserves_pages_and_stamps_all "wm" mixedDoc 1
     { width := 792, height := 612, ops := [] } (by decide)⟩

/-- Claim C9: emails are unique case-insensitively.  If registering email `e1`
succeeds against a users table, then registering any `e2` that lower-cases to
the same string fails with the uniqueness error, and a login lookup with any
casing `s` of that email finds exactly the registered account (every stored
email being normalized to lower case together with the UNIQUE constraint). -/
theorem email_unique_case_insensitive (users : List User)
    (id1 id2 e1 e2 n1 n2 r1 r2 s : String) (users2 : List User)
    (hcase : toLowerCase e1 = toLowerCase e2)
    (h1 : registerUser users id1 e1 n1 r1 = .ok users2)
    (hs : toLowerCase s = toLowerCase e1) :
    registerUser users2 id2 e2 n2 r2 = .emailUsed ∧
    ∃ u, findUserByEmail users2 s = some u ∧ u.id = id1 ∧ u.email = toLowerCase e1 := by
  by_cases ht : emailTaken users (toLowerCase e1) = true
  · simp [registerUser, ht] at h1
  · rw [registerUser] at h1
    simp only [ht, if_false, Bool.false_eq_true, RegisterResult.ok.injEq] at h1
    subst h1
    constructor
    · rw [registerUser]
      have ht2 : emailTaken (users ++
          [{ id := id1, email := toLowerCase e1, name := n1,
             role := if r1 = "WRITER" then "WRITER" else "READER" }])
          (toLowerCase e2) = true := by
        simp [emailTaken, List.any_append, ← hcase]
      simp [ht2]
    · have hnone : users.find? (fun u => decide (u.email = toLowerCase s)) = none := by
        rw [List.find?_eq_none]
        intro u hu
        simp only [decide_eq_true_eq]
        intro heq
        apply ht
        simp only [emailTaken, List.any_eq_true]
        exact ⟨u, hu, by simp [heq, hs]⟩
      refine ⟨{ id := id1, email := toLowerCase e1, name := n1,
                role := if r1 = "WRITER" then "WRITER" else "READER" }, ?_, rfl, rfl⟩
      simp [findUserByEmail, List.find?_append, hnone, List.find?_cons, hs]
      refine Or.inr ?_
      intro x hx hxe
      apply ht
      simp only [emailTaken, List.any_eq_true]
      exact ⟨x, hx, by simp [hxe]⟩

/-- Witness for C9: registering "Ada@X.COM" stores "ada@x.com"; registering
"ADA@x.Com" then fails, and a login lookup submitted as "aDa@x.CoM" finds the
account. -/
theorem email_unique_case_insensitive_witness :
    (toLowerCase "Ada@X.COM" = toLowerCase "ADA@x.Com" ∧
     registerUser [] "u1" "Ada@X.COM" "Ada" "READER" = .ok [adaUser] ∧
     toLowerCase "aDa@x.CoM" = toLowerCase "Ada@X.COM") ∧
    (registerUser [adaUser] "u2" "ADA@x.Com" "B" "READER" = .emailUsed ∧
     ∃ u, findUserByEmail [adaUser] "aDa@x.CoM" = some u ∧ u.id = "u1" ∧
       u.email = toLowerCase "Ada@X.COM") :=
  ⟨⟨by decide, by decide, by decide⟩,
   email_unique_case_insensitive [] "u1" "u2" "Ada@X.COM" "ADA@x.Com" "Ada" "B"
     "READER" "READER" "aDa@x.CoM" [adaUser] (by decide) (by decide) (by decide)⟩

/-- Claim C10: on a repeat purchase (an order row for the pair already
stored), the handler generates a fresh order id, the duplicate insert is
ignored so the stored row keeps its old id, yet the regenerated artifact's
watermark text renders the fresh id — so the order id visible in the
watermark differs from the id of the Order row stored for the pair. -/
theorem repeat_purchase_watermark_has_fresh_order_id (st : St)
    (buyerId buyerEmail bookId freshId : String) (book : Book) (doc : PDFDoc)
    (old : Order)
    (hb : findBook st.books bookId = some book)
    (hu : lookupUpload st.uploads book.pdfPath = some doc)
    (hord : findOrder st.orders buyerId bookId = some old)
    (hne : freshId ≠ old.id) :
    (purchase st buyerId buyerEmail bookId freshId true).1 = .success ∧
    findOrder (purchase st buyerId buyerEmail bookId freshId true).2.orders
      buyerId bookId = some old ∧
    lookupPurchase (purchase st buyerId buyerEmail bookId freshId true).2.purchases
      (buyerId, bookId) =
      some (stampDoc (watermarkText buyerEmail book.title freshId) doc) ∧
    watermarkText buyerEmail book.title freshId ≠
      watermarkText buyerEmail book.title old.id := by
  have hins : insertOrIgnoreOrder st.orders (newOrderRow freshId buyerId bookId) =
      st.orders := by
    apply insertOrIgnoreOrder_of_hasOrder
    simpa [newOrderRow] using hasOrder_of_findOrder st.orders buyerId bookId old hord
  have h1 := purchase_success_eq st buyerId buyerEmail bookId freshId book doc hb hu
  rw [h1]
  dsimp only
  refine ⟨rfl, ?_, ?_, ?_⟩
  · simp only [storeArtifact_orders, recordOrder_orders, hins]
    exact hord
  · simp only [storeArtifact_purchases]
    exact lookupPurchase_setPurchase _ _ _
  · rw [watermarkText, watermarkText]
    exact string_append_right_ne _ freshId old.id hne

/-- Witness for C10: "u1" already holds order "o-old" for "b1"; a repeat
purchase with fresh id "o-new" keeps the stored row "o-old" while the
persisted artifact carries the watermark rendering "o-new". -/
theorem repeat_purchase_watermark_has_fresh_order_id_witness :
    (findBook ownedSt.books "b1" = some bookB1 ∧
     lookupUpload ownedSt.uploads bookB1.pdfPath = some mixedDoc ∧
     findOrder ownedSt.orders "u1" "b1" = some paidOrder ∧
     "o-new" ≠ paidOrder.id) ∧
    ((purchase ownedSt "u1" "ada@x.com" "b1" "o-new" true).1 = .success ∧
     findOrder (purchase ownedSt "u1" "ada@x.com" "b1" "o-new" true).2.orders
       "u1" "b1" = some paidOrder ∧
     lookupPurchase (purchase ownedSt "u1" "ada@x.com" "b1" "o-new" true).2.purchases
       ("u1", "b1") =
       some (stampDoc (watermarkText "ada@x.com" bookB1.title "o-new") mixedDoc) ∧
     watermarkText "ada@x.com" bookB1.title "o-new" ≠
       watermarkText "ada@x.com" bookB1.title paidOrder.id) :=
  ⟨⟨by decide, by decide, by decide, by decide⟩,
   repeat_purchase_watermark_has_fresh_order_id ownedSt "u1" "ada@x.com" "b1" "o-new"
     bookB1 mixedDoc paidOrder (by decide) (by decide) (by decide) (by decide)⟩

end AfriWrite
